import Mathlib

/-!
Verification development for the meridian terminal client
(`src/cli/meridian_cli`).  The Python source is shallowly embedded:

* `models.py`      → `TurnBlock`, `Turn`, `PaginatedTurnsResponse`
* `navigation.py`  → `NavigationState` and its direction queries
* `turn_browser.py`→ `BrowserState`, `update_display`, `do_navigate`,
                     `navigate_to_turn`, `on_mount`, the four actions
* `streaming.py`   → `StreamState`, `processEvent`, `start_streaming`,
                     `action_cancel`
* `api_client.py`  → `processLine` / `runSSE` (the SSE line loop)

Python truthiness on optional strings (`if x:` where `x : str | None`)
is modelled by `truthyStr`; machine-level concerns do not arise (all
integers are small list indices).
-/

/-- Python truthiness of a `str | None` value: `None` and `""` are falsy. -/
def truthyStr : Option String → Bool
  | none => false
  | some s => s ≠ ""

/-- One content block of a turn (`models.TurnBlock`); only the fields the
embedded code reads are kept. -/
structure TurnBlock where
  id : String
  turn_id : String
  block_type : String
  sequence : Nat
  text_content : Option String
  deriving Repr, DecidableEq

/-- First index of `x` in a list, `none` when absent: the search performed
by Python's `list.index` (which raises `ValueError` when absent). -/
def listIndex (x : String) : List String → Option Nat
  | [] => none
  | y :: ys => if y = x then some 0 else (listIndex x ys).map (· + 1)

/-- A turn (`models.Turn`); fields not read by the embedded code
(timestamps, token counts, request params, …) are omitted. -/
structure Turn where
  id : String
  chat_id : String
  prev_turn_id : Option String
  role : String
  status : String
  error : Option String
  model : Option String
  blocks : List TurnBlock
  sibling_ids : List String
  deriving Repr, DecidableEq

/-- `Turn.sibling_index`: `self.sibling_ids.index(self.id)`, with the
`ValueError` (id absent) handler returning `0`. -/
def Turn.sibling_index (t : Turn) : Nat :=
  (listIndex t.id t.sibling_ids).getD 0

/-- `models.PaginatedTurnsResponse`. -/
structure PaginatedTurnsResponse where
  turns : List Turn
  has_more_before : Bool
  has_more_after : Bool
  deriving Repr, DecidableEq

/-- `navigation.NavigationState`: the current turn plus the page fetched
for it. -/
structure NavigationState where
  current : Turn
  response : PaginatedTurnsResponse
  deriving Repr, DecidableEq

/-- `can_go_up`: `self.current.prev_turn_id is not None`. -/
def NavigationState.can_go_up (ns : NavigationState) : Bool :=
  ns.current.prev_turn_id.isSome

/-- `prev_turn_id` getter: returns `self.current.prev_turn_id`. -/
def NavigationState.prev_turn_id (ns : NavigationState) : Option String :=
  ns.current.prev_turn_id

/-- `can_go_down`: `len(self.response.turns) > 1`. -/
def NavigationState.can_go_down (ns : NavigationState) : Bool :=
  ns.response.turns.length > 1

/-- `next_turn_id`: `self.response.turns[1].id` when the page has more
than one element, else `None`. -/
def NavigationState.next_turn_id (ns : NavigationState) : Option String :=
  if ns.response.turns.length > 1 then
    (ns.response.turns.get? 1).map (fun t => t.id)
  else
    none

/-- `can_go_left`: `self.current.sibling_index > 0`. -/
def NavigationState.can_go_left (ns : NavigationState) : Bool :=
  ns.current.sibling_index > 0

/-- `prev_sibling_id`: `self.current.sibling_ids[idx - 1]` when
`idx > 0`, else `None`. -/
def NavigationState.prev_sibling_id (ns : NavigationState) : Option String :=
  let idx := ns.current.sibling_index
  if idx > 0 then ns.current.sibling_ids.get? (idx - 1) else none

/-- `can_go_right`: `idx < len(self.current.sibling_ids) - 1`
(Python integer arithmetic, hence the cast to `Int`). -/
def NavigationState.can_go_right (ns : NavigationState) : Bool :=
  (ns.current.sibling_index : Int) < (ns.current.sibling_ids.length : Int) - 1

/-- `next_sibling_id`: `self.current.sibling_ids[idx + 1]` when
`idx < len - 1`, else `None`. -/
def NavigationState.next_sibling_id (ns : NavigationState) : Option String :=
  let idx := ns.current.sibling_index
  if (idx : Int) < (ns.current.sibling_ids.length : Int) - 1 then
    ns.current.sibling_ids.get? (idx + 1)
  else
    none

/-! ## Turn browser screen (`screens/turn_browser.py`)

The screen's reactive fields (`current_turn`, `nav_state`), its display
box and its emitted notifications form the observable state.  Python
exceptions are modelled by `PyError`; `asyncio.CancelledError` derives
from `BaseException`, not `Exception`, so an `except Exception` clause
does not catch `cancelledError`. -/

/-- A Python exception: `asyncio.CancelledError`, or an ordinary
`Exception` with its message. -/
inductive PyError
  | cancelledError
  | exn (msg : String)
  deriving Repr, DecidableEq

/-- Observable state of `TurnBrowserScreen`: the two reactive fields,
the lines in its `RichLog` display box, and the notifications raised via
`app.notify`. -/
structure BrowserState where
  current_turn : Option Turn
  nav_state : Option NavigationState
  display : List String
  notifications : List String
  deriving Repr, DecidableEq

/-- The fresh screen: both reactive fields `None`, nothing displayed. -/
def initialBrowserState : BrowserState :=
  { current_turn := none, nav_state := none, display := [], notifications := [] }

/-- Python string slice `s[:n]`. -/
def pyTake (s : String) (n : Nat) : String := ⟨s.data.take n⟩

/-- `" " * n`. -/
def mkSpaces (n : Nat) : String := ⟨List.replicate n ' '⟩

/-- Rendering of one content block by `update_display`'s block loop. -/
def renderBlock (b : TurnBlock) : List String :=
  if b.block_type = "thinking" then
    ["[dim][thinking][/dim]"]
      ++ (if truthyStr b.text_content then [b.text_content.getD ""] else [])
      ++ [""]
  else if b.block_type = "text" then
    ["[dim][text][/dim]"]
      ++ (if truthyStr b.text_content then [b.text_content.getD ""] else [])
      ++ [""]
  else
    ["[dim][" ++ b.block_type ++ "][/dim]", ""]

/-- Block loop of `update_display`. -/
def renderBlocks : List TurnBlock → List String
  | [] => []
  | b :: bs => renderBlock b ++ renderBlocks bs

/-- Navigation-hint line of `update_display`: each direction's label, or
spaces of the same width when the direction is unavailable, joined with
`" | "` in the order left, down, up, right. -/
def navHintsLine (ns : NavigationState) : String :=
  let up_label := "W: ↑ Parent"
  let down_label := "S: ↓ Child"
  let left_label := "A: ← Prev"
  let right_label := "D: → Next"
  let hints :=
    [if ns.can_go_left then left_label else mkSpaces left_label.length,
     if ns.can_go_down then down_label else mkSpaces down_label.length,
     if ns.can_go_up then up_label else mkSpaces up_label.length,
     if ns.can_go_right then right_label else mkSpaces right_label.length]
  String.intercalate " | " hints

/-- `TurnBrowserScreen.update_display`: clears the display box and
re-renders it from `(current_turn, nav_state)`; returns the new lines. -/
def update_display (s : BrowserState) : List String :=
  match s.current_turn with
  | none => []
  | some t =>
      ["[bold cyan]Turn ID:[/bold cyan] " ++ pyTake t.id 8,
       "[bold cyan]Role:[/bold cyan] " ++ t.role,
       "[bold cyan]Status:[/bold cyan] " ++ t.status]
      ++ (if truthyStr t.model then
            ["[bold cyan]Model:[/bold cyan] " ++ t.model.getD ""] else [])
      ++ (if truthyStr t.error then
            ["[red]Error:[/red] " ++ t.error.getD ""] else [])
      ++ (if t.sibling_ids ≠ [] ∧ t.sibling_ids.length > 1 then
            ["[dim]Sibling " ++ toString (t.sibling_index + 1) ++ " of "
              ++ toString t.sibling_ids.length ++ "[/dim]"] else [])
      ++ (match s.nav_state with
          | some ns => [navHintsLine ns]
          | none => [])
      ++ [""]
      ++ renderBlocks t.blocks

/-- `TurnBrowserScreen._do_navigate`, resumed at its `await get_turns`
with either the fetch result or an injected exception.  Returns the new
state and the exception propagating out of the coroutine, if any:

* fetch ok, non-empty page: sets `nav_state` then `current_turn`
  (whose reactive watcher re-runs `update_display`);
* fetch ok, empty page: falls through the `if response.turns:` with no
  further statement;
* ordinary exception: caught by `except Exception`, which notifies;
* `CancelledError`: not an `Exception`, so it propagates and nothing
  after the `await` runs. -/
def do_navigate (s : BrowserState) (res : Except PyError PaginatedTurnsResponse) :
    BrowserState × Option PyError :=
  match res with
  | .ok response =>
      match response.turns with
      | [] => (s, none)
      | t :: _ =>
          let s1 := { s with nav_state := some ⟨t, response⟩, current_turn := some t }
          ({ s1 with display := update_display s1 }, none)
  | .error .cancelledError => (s, some .cancelledError)
  | .error (.exn msg) =>
      ({ s with notifications := s.notifications ++ ["Navigation error: " ++ msg] }, none)

/-- `TurnBrowserScreen.navigate_to_turn`: when a previous navigation task
is still pending, the code calls `task.cancel()` and awaits it.  Per
asyncio semantics a task cancelled while suspended at its `await` is
resumed with `CancelledError` — its fetch result `rA` is discarded by the
runtime and never delivered.  The `except asyncio.CancelledError: pass`
around the awaits swallows the propagated cancellation.  Only then is the
new task for the requested navigation created and awaited with result
`rB`. -/
def navigate_to_turn (s : BrowserState)
    (pendingA : Option (Except PyError PaginatedTurnsResponse))
    (rB : Except PyError PaginatedTurnsResponse) : BrowserState :=
  match pendingA with
  | some _rA =>
      let s1 := (do_navigate s (.error .cancelledError)).1
      (do_navigate s1 rB).1
  | none => (do_navigate s rB).1

/-- `TurnBrowserScreen.on_mount`, resumed at its `await get_turns`:
non-empty page sets the reactive fields and renders; an empty page writes
the empty-state line to the (fresh) display box; an ordinary exception is
caught and notified. -/
def on_mount (s : BrowserState) (res : Except PyError PaginatedTurnsResponse) :
    BrowserState × Option PyError :=
  match res with
  | .ok response =>
      match response.turns with
      | t :: _ =>
          let s1 := { s with nav_state := some ⟨t, response⟩, current_turn := some t }
          ({ s1 with display := update_display s1 }, none)
      | [] =>
          ({ s with display :=
              s.display ++ ["[dim]No turns in this chat yet. Start typing below![/dim]"] },
           none)
  | .error .cancelledError => (s, some .cancelledError)
  | .error (.exn msg) =>
      ({ s with notifications := s.notifications ++ ["Error loading turns: " ++ msg] }, none)

/-- `action_navigate_up`: the id passed to `navigate_to_turn`, or `none`
when the guard `self.nav_state and can_go_up and prev_turn_id` fails
(no navigation happens). -/
def action_navigate_up_target (s : BrowserState) : Option String :=
  match s.nav_state with
  | some ns =>
      if ns.can_go_up ∧ truthyStr ns.prev_turn_id then ns.prev_turn_id else none
  | none => none

/-- `action_navigate_down`: likewise for `can_go_down` / `next_turn_id`. -/
def action_navigate_down_target (s : BrowserState) : Option String :=
  match s.nav_state with
  | some ns =>
      if ns.can_go_down ∧ truthyStr ns.next_turn_id then ns.next_turn_id else none
  | none => none

/-- `action_navigate_left`: likewise for `can_go_left` / `prev_sibling_id`. -/
def action_navigate_left_target (s : BrowserState) : Option String :=
  match s.nav_state with
  | some ns =>
      if ns.can_go_left ∧ truthyStr ns.prev_sibling_id then ns.prev_sibling_id else none
  | none => none

/-- `action_navigate_right`: likewise for `can_go_right` / `next_sibling_id`. -/
def action_navigate_right_target (s : BrowserState) : Option String :=
  match s.nav_state with
  | some ns =>
      if ns.can_go_right ∧ truthyStr ns.next_sibling_id then ns.next_sibling_id else none
  | none => none

/-! ## Streaming screen (`screens/streaming.py`)

`start_streaming` accumulates the assistant's content in a single
`Text` buffer (`content`), tracking the type of the block currently
open, and ends by dismissing the screen with exactly one value. -/

/-- Payload of a `block_delta` event, as the code reads it:
`data.get("delta_type")`, `data.get("block_type")`,
`data.get("text_delta", "")`, `data.get("input_json_delta", "")`. -/
structure BlockDeltaData where
  delta_type : Option String
  block_type : Option String
  text_delta : String
  input_json_delta : String
  deriving Repr, DecidableEq

/-- A typed SSE event as dispatched by `start_streaming`'s
`if event_type == ...` chain; event names outside the three recognized
ones fall through the chain untouched. -/
inductive StreamEvent
  | block_start (block_type : Option String)
  | block_delta (d : BlockDeltaData)
  | turn_complete
  | otherEvent (name : String)
  deriving Repr, DecidableEq

/-- Renderer state: the accumulated `content` buffer and
`current_block_type`. -/
structure StreamState where
  content : String
  current_block_type : Option String
  deriving Repr, DecidableEq

/-- The label appended when a block of type `bt` opens:
`[thinking]`, `[text]`, or `[{bt}]`, each followed by a newline. -/
def blockLabel (bt : String) : String :=
  if bt = "thinking" then "[thinking]\n"
  else if bt = "text" then "[text]\n"
  else "[" ++ bt ++ "]\n"

/-- `block_start` handling: when the announced type differs from the
current one, switch to it and (if the announced type is truthy) append
its label. -/
def handle_block_start (st : StreamState) (bt : Option String) : StreamState :=
  if bt ≠ st.current_block_type then
    let st1 : StreamState := { st with current_block_type := bt }
    match bt with
    | some b => if b ≠ "" then { st1 with content := st1.content ++ blockLabel b } else st1
    | none => st1
  else st

/-- The defensive `block_type` field on a `block_delta`: when truthy and
different from the current type, the same switch-and-label behaviour as
`block_start`. -/
def handle_delta_block_type (st : StreamState) (bt : Option String) : StreamState :=
  match bt with
  | some b =>
      if b ≠ "" ∧ some b ≠ st.current_block_type then
        { content := st.content ++ blockLabel b, current_block_type := some b }
      else st
  | none => st

/-- One iteration of `start_streaming`'s `async for event in ...` loop. -/
def processEvent (st : StreamState) (e : StreamEvent) : StreamState :=
  match e with
  | .block_start bt => handle_block_start st bt
  | .block_delta d =>
      let st1 := handle_delta_block_type st d.block_type
      if d.delta_type = some "text_delta" ∨ d.delta_type = some "thinking_delta" then
        if d.text_delta ≠ "" ∧
            (st1.current_block_type = some "thinking" ∨ st1.current_block_type = some "text") then
          { st1 with content := st1.content ++ d.text_delta }
        else st1
      else if d.delta_type = some "input_json_delta" then
        if d.input_json_delta ≠ "" ∧
            (st1.current_block_type = some "tool_use" ∨ st1.current_block_type = some "tool_result") then
          { st1 with content := st1.content ++ d.input_json_delta }
        else st1
      else st1
  | .turn_complete => st
  | .otherEvent _ => st

/-- How one run of the event stream ends: the transport closes normally
after delivering `events`, or an exception (name and message) is raised
after `eventsBefore`. -/
inductive StreamRun
  | completes (events : List StreamEvent)
  | fails (eventsBefore : List StreamEvent) (ename : String) (emsg : String)
  deriving Repr, DecidableEq

/-- Observable outcome of `start_streaming`: the final text shown in the
streaming box, the notifications raised, and the values passed to
`dismiss` in order. -/
structure StreamingOutcome where
  displayed : String
  notifications : List String
  dismissals : List (Option String)
  deriving Repr, DecidableEq

/-- `StreamingScreen.start_streaming` for assistant turn `turnId`:
* normal completion folds the events, appends the zero-event warning if
  none arrived, and dismisses with the turn id;
* an exception replaces the display with the rendered error, notifies,
  sleeps the 3-second grace period and dismisses with `None`. -/
def start_streaming (turnId : String) (run : StreamRun) : StreamingOutcome :=
  match run with
  | .completes events =>
      let st := events.foldl processEvent { content := "", current_block_type := none }
      let st1 :=
        if events.length = 0 then
          { st with content :=
              st.content ++ "\n[yellow]Warning: No events received from stream[/yellow]" }
        else st
      { displayed := st1.content, notifications := [], dismissals := [some turnId] }
  | .fails _eventsBefore ename emsg =>
      { displayed :=
          "\nStreaming Error:\n" ++ ename ++ ": " ++ emsg ++ "\n" ++ "\nCheck logs for details",
        notifications := ["Streaming error: " ++ emsg],
        dismissals := [none] }

/-- Observable outcome of `action_cancel`: the interrupt calls issued,
the notifications raised, and the values passed to `dismiss` in order. -/
structure CancelOutcome where
  interrupt_calls : List String
  notifications : List String
  dismissals : List (Option String)
  deriving Repr, DecidableEq

/-- `StreamingScreen.action_cancel`: issues
`interrupt_turn(assistant_turn.id)` and dismisses with `None` whether
that call succeeds or raises. -/
def action_cancel (turnId : String) (interruptResult : Except String Unit) : CancelOutcome :=
  match interruptResult with
  | .ok _ =>
      { interrupt_calls := [turnId],
        notifications := ["Streaming cancelled"],
        dismissals := [none] }
  | .error e =>
      { interrupt_calls := [turnId],
        notifications := ["Error cancelling stream: " ++ e],
        dismissals := [none] }

/-! ## SSE line loop (`api_client.py`, `stream_turn`)

The `async for line in response.aiter_lines()` loop is a fold over the
received lines.  JSON decoding (`json.loads`) is an external library
call, abstracted as a parameter `parseJson : String → Option D`
(`none` = `json.JSONDecodeError`). -/

/-- Python `line.startswith(pre)`. -/
def pyStartsWith (line pre : String) : Bool :=
  pre.data.isPrefixOf line.data

/-- Python slice `line[n:]`. -/
def pyDrop (line : String) (n : Nat) : String := ⟨line.data.drop n⟩

/-- Loop state of `stream_turn`: the pending `event_type` and
`data_lines`, plus the events yielded so far and the count of
`logger.warning` calls for malformed frames. -/
structure SSEState (D : Type) where
  event_type : Option String
  data_lines : List String
  events : List (String × D)
  warnings : Nat
  deriving Repr, DecidableEq

/-- The state at the top of the loop: nothing pending, nothing yielded. -/
def initSSEState (D : Type) : SSEState D :=
  { event_type := none, data_lines := [], events := [], warnings := 0 }

/-- One iteration of the `stream_turn` line loop:
`event: ` lines set `event_type` to `line[7:]`; `data: ` lines append
`line[6:]`; an empty line, when `event_type` and `data_lines` are both
truthy, joins the data lines with newlines and JSON-parses them — on
success the event is yielded, on failure a warning is logged — and in
either case resets `event_type` and `data_lines`. -/
def processLine {D : Type} (parseJson : String → Option D)
    (st : SSEState D) (line : String) : SSEState D :=
  if pyStartsWith line "event: " then
    { st with event_type := some (pyDrop line 7) }
  else if pyStartsWith line "data: " then
    { st with data_lines := st.data_lines ++ [pyDrop line 6] }
  else if line = "" then
    match st.event_type with
    | some et =>
        if et ≠ "" ∧ st.data_lines ≠ [] then
          match parseJson (String.intercalate "\n" st.data_lines) with
          | some d =>
              { st with event_type := none, data_lines := [],
                        events := st.events ++ [(et, d)] }
          | none =>
              { st with event_type := none, data_lines := [],
                        warnings := st.warnings + 1 }
        else st
    | none => st
  else st

/-- The whole line loop over a received line sequence. -/
def runSSE {D : Type} (parseJson : String → Option D) (lines : List String) : SSEState D :=
  lines.foldl (processLine parseJson) (initSSEState D)

/-- One SSE frame as the server emits it (§6 of the wire protocol):
an event name and the payload lines of its data section. -/
structure SSEFrame where
  name : String
  datas : List String
  deriving Repr, DecidableEq

/-- The wire encoding of one frame:
`event: <name>`, then `data: <line>` for each data line, then a blank
line. -/
def encodeFrame (f : SSEFrame) : List String :=
  ("event: " ++ f.name) :: (f.datas.map (fun d => "data: " ++ d) ++ [""])

/-- Wire encoding of a frame sequence. -/
def encodeFrames : List SSEFrame → List String
  | [] => []
  | f :: fs => encodeFrame f ++ encodeFrames fs

/-- A frame with a truthy event name and a non-empty data section —
the shape for which the loop attempts a JSON parse at all. -/
def wellFormedFrame (f : SSEFrame) : Prop :=
  f.name ≠ "" ∧ f.datas ≠ []

/-- `wellFormedFrame` is decidable (used by concrete witnesses). -/
instance decWellFormedFrame (f : SSEFrame) : Decidable (wellFormedFrame f) :=
  inferInstanceAs (Decidable (f.name ≠ "" ∧ f.datas ≠ []))

/-- The joined data section of a frame, as handed to `json.loads`. -/
def frameData (f : SSEFrame) : String :=
  String.intercalate "\n" f.datas

/-- The event a frame contributes: `none` when its data section fails to
parse. -/
def frameEvent {D : Type} (parseJson : String → Option D) (f : SSEFrame) :
    Option (String × D) :=
  (parseJson (frameData f)).map (fun d => (f.name, d))

/-- Events contributed by a frame sequence, in order. -/
def collectEvents {D : Type} (parseJson : String → Option D) :
    List SSEFrame → List (String × D)
  | [] => []
  | f :: fs =>
      match frameEvent parseJson f with
      | some ev => ev :: collectEvents parseJson fs
      | none => collectEvents parseJson fs

/-- Number of malformed (unparseable) frames in a sequence. -/
def countMalformed {D : Type} (parseJson : String → Option D) :
    List SSEFrame → Nat
  | [] => 0
  | f :: fs =>
      (match parseJson (frameData f) with
       | none => 1
       | some _ => 0) + countMalformed parseJson fs

/-! ## Concrete fixtures (used by witness theorems) -/

/-- A first sibling: `prev_turn_id` set, first of two siblings. -/
def turnB : Turn :=
  { id := "bbbb", chat_id := "chat1", prev_turn_id := some "aaaa",
    role := "assistant", status := "completed", error := none, model := none,
    blocks := [], sibling_ids := ["bbbb", "cccc"] }

/-- The second sibling of `turnB`. -/
def turnC : Turn :=
  { id := "cccc", chat_id := "chat1", prev_turn_id := some "aaaa",
    role := "assistant", status := "completed", error := none, model := none,
    blocks := [], sibling_ids := ["bbbb", "cccc"] }

/-- A turn whose own id is absent from its sibling list (the degraded
data-integrity case). -/
def turnGhost : Turn :=
  { id := "gggg", chat_id := "chat1", prev_turn_id := none,
    role := "user", status := "completed", error := none, model := none,
    blocks := [], sibling_ids := ["xxxx", "yyyy"] }

/-- A page for `turnB` whose single child slot holds `turnC`. -/
def pageB : PaginatedTurnsResponse :=
  { turns := [turnB, turnC], has_more_before := false, has_more_after := false }

/-- A toy stand-in for `json.loads` in witnesses: accepts only the
payload `"good"`. -/
def toyParse (s : String) : Option Nat :=
  if s = "good" then some 7 else none

/-! ## Helper lemmas -/

theorem listIndex_eq_none_of_not_mem {x : String} {l : List String}
    (h : x ∉ l) : listIndex x l = none := by
  induction l with
  | nil => rfl
  | cons y ys ih =>
    simp only [List.mem_cons, not_or] at h
    simp [listIndex, Ne.symm h.1, ih h.2]

theorem listIndex_eq_indexOf_of_mem {x : String} {l : List String}
    (h : x ∈ l) : listIndex x l = some (l.indexOf x) := by
  induction l with
  | nil => cases h
  | cons y ys ih =>
    by_cases hy : y = x
    · subst hy
      simp [listIndex, List.indexOf_cons_self]
    · have hx : x ∈ ys := by
        rcases List.mem_cons.mp h with h1 | h2
        · exact absurd h1.symm hy
        · exact h2
      have hne := List.indexOf_cons_ne (a := x) (b := y) ys hy
      simp [listIndex, hy, ih hx, hne]

/-! ## Claims about the turn tree model and navigation engine -/

/-- C9: `Turn.sibling_index` equals the index of the turn's own id found
by linear search in `sibling_ids` when the id is present, and defaults to
`0` (without raising) when the id is absent, including for an empty
`sibling_ids`. -/
theorem sibling_index_spec (t : Turn) :
    (t.id ∈ t.sibling_ids → t.sibling_index = t.sibling_ids.indexOf t.id) ∧
    (t.id ∉ t.sibling_ids → t.sibling_index = 0) ∧
    (t.sibling_ids = [] → t.sibling_index = 0) := by
  refine ⟨fun h => ?_, fun h => ?_, fun h => ?_⟩
  · unfold Turn.sibling_index
    rw [listIndex_eq_indexOf_of_mem h]
    rfl
  · unfold Turn.sibling_index
    rw [listIndex_eq_none_of_not_mem h]
    rfl
  · unfold Turn.sibling_index
    rw [listIndex_eq_none_of_not_mem (by rw [h]; exact List.not_mem_nil t.id)]
    rfl

/-- Witness for C9 at concrete turns: present id (second position) and
absent id. -/
theorem sibling_index_spec_witness :
    turnC.sibling_index = List.indexOf "cccc" ["bbbb", "cccc"] ∧
    turnGhost.sibling_index = 0 := by
  have h1 := (sibling_index_spec turnC).1 (by decide)
  have h2 := (sibling_index_spec turnGhost).2.1 (by decide)
  exact ⟨h1, h2⟩

/-- C1: for a current turn `T` and a page `P` whose first element is `T`:
up is enabled iff `T.prev_turn_id` is non-null with that id as target;
down is enabled iff `P.turns` has more than one element with target
`P.turns[1].id`; with `i = T.sibling_index`, left is enabled iff `i > 0`
with target `sibling_ids[i-1]`, right is enabled iff
`i < len(sibling_ids) - 1` with target `sibling_ids[i+1]`; each getter
returns `none` when its direction is disabled. -/
theorem navigation_queries_spec (T : Turn) (P : PaginatedTurnsResponse)
    (_hfirst : P.turns.head? = some T) :
    ((NavigationState.mk T P).can_go_up = true ↔ T.prev_turn_id ≠ none) ∧
    ((NavigationState.mk T P).prev_turn_id = T.prev_turn_id) ∧
    ((NavigationState.mk T P).can_go_up = false →
      (NavigationState.mk T P).prev_turn_id = none) ∧
    ((NavigationState.mk T P).can_go_down = true ↔ 1 < P.turns.length) ∧
    (∀ h : 1 < P.turns.length,
      (NavigationState.mk T P).next_turn_id = some (P.turns.get ⟨1, h⟩).id) ∧
    ((NavigationState.mk T P).can_go_down = false →
      (NavigationState.mk T P).next_turn_id = none) ∧
    ((NavigationState.mk T P).can_go_left = true ↔ 0 < T.sibling_index) ∧
    (0 < T.sibling_index →
      (NavigationState.mk T P).prev_sibling_id
        = T.sibling_ids.get? (T.sibling_index - 1)) ∧
    ((NavigationState.mk T P).can_go_left = false →
      (NavigationState.mk T P).prev_sibling_id = none) ∧
    ((NavigationState.mk T P).can_go_right = true ↔
      (T.sibling_index : Int) < (T.sibling_ids.length : Int) - 1) ∧
    ((T.sibling_index : Int) < (T.sibling_ids.length : Int) - 1 →
      (NavigationState.mk T P).next_sibling_id
        = T.sibling_ids.get? (T.sibling_index + 1)) ∧
    ((NavigationState.mk T P).can_go_right = false →
      (NavigationState.mk T P).next_sibling_id = none) := by
  refine ⟨?_, rfl, ?_, ?_, ?_, ?_, ?_, ?_, ?_, ?_, ?_, ?_⟩
  · simp [NavigationState.can_go_up, Option.isSome_iff_ne_none]
  · intro h
    simpa [NavigationState.can_go_up, NavigationState.prev_turn_id,
      Option.isSome_iff_ne_none] using h
  · simp [NavigationState.can_go_down]
  · intro h
    simp [NavigationState.next_turn_id, h, List.get?_eq_get h]
  · intro h
    simp only [NavigationState.can_go_down, decide_eq_false_iff_not, not_lt] at h
    simp [NavigationState.next_turn_id]
    omega
  · simp [NavigationState.can_go_left]
  · intro h
    simp [NavigationState.prev_sibling_id, h]
  · intro h
    simp only [NavigationState.can_go_left, decide_eq_false_iff_not, not_lt,
      Nat.le_zero] at h
    simp [NavigationState.prev_sibling_id, h]
  · simp [NavigationState.can_go_right]
  · intro h
    simp [NavigationState.next_sibling_id, h]
  · intro h
    simp only [NavigationState.can_go_right, decide_eq_false_iff_not, not_lt] at h
    simp [NavigationState.next_sibling_id]
    omega

/-- Witness for C1 at `turnB` / `pageB`: down enabled with `turnC` as
target, and the up getter agrees with `prev_turn_id`. -/
theorem navigation_queries_spec_witness :
    (NavigationState.mk turnB pageB).next_turn_id = some "cccc" ∧
    ((NavigationState.mk turnB pageB).can_go_up = true ↔
      turnB.prev_turn_id ≠ none) := by
  have h := navigation_queries_spec turnB pageB (by decide)
  refine ⟨?_, h.1⟩
  have h5 := h.2.2.2.2.1 (by decide)
  exact h5.trans (by decide)

/-! ## Claims about the navigation controller -/

/-- C2: when navigation B is issued while navigation A is still in
flight, the controller cancels A and awaits its settlement before
starting B; the cancelled coroutine resumes with `CancelledError`, which
`_do_navigate`'s `except Exception` does not catch, so A's settlement
performs no state mutation and the final state reflects B alone
(independently of A's discarded fetch result `rA`). -/
theorem supersession_spec (s : BrowserState)
    (rA rB : Except PyError PaginatedTurnsResponse) :
    navigate_to_turn s (some rA) rB = (do_navigate s rB).1 ∧
    do_navigate s (.error .cancelledError) = (s, some .cancelledError) := by
  exact ⟨rfl, rfl⟩

/-- C4: a navigation whose fetch fails with an ordinary (non-cancellation)
exception leaves the displayed state unchanged — `current_turn`,
`nav_state` and the display keep their prior values — appends exactly one
transient notification, and propagates no exception. -/
theorem navigation_failure_spec (s : BrowserState) (msg : String) :
    (do_navigate s (.error (.exn msg))).1.current_turn = s.current_turn ∧
    (do_navigate s (.error (.exn msg))).1.nav_state = s.nav_state ∧
    (do_navigate s (.error (.exn msg))).1.display = s.display ∧
    (do_navigate s (.error (.exn msg))).1.notifications
      = s.notifications ++ ["Navigation error: " ++ msg] ∧
    (do_navigate s (.error (.exn msg))).2 = none := by
  exact ⟨rfl, rfl, rfl, rfl, rfl⟩

/-- C10: a navigation whose fetch succeeds with an empty page is a
silent no-op: the whole screen state (current turn, navigation state,
display, notifications) is returned unchanged and no exception is
raised. -/
theorem empty_page_noop_spec (s : BrowserState) (hb ha : Bool) :
    do_navigate s (.ok ⟨[], hb, ha⟩) = (s, none) := rfl

/-- C8: on initial load, a fetch returning an empty turns list renders
the explicit empty-state line, leaves `current_turn` and `nav_state`
unset, and leaves all four direction actions disabled (each action's
navigation target is `none`, so pressing any navigation key performs no
navigation). -/
theorem initial_empty_state_spec (hb ha : Bool) :
    (on_mount initialBrowserState (.ok ⟨[], hb, ha⟩)).1.current_turn = none ∧
    (on_mount initialBrowserState (.ok ⟨[], hb, ha⟩)).1.nav_state = none ∧
    (on_mount initialBrowserState (.ok ⟨[], hb, ha⟩)).1.display
      = ["[dim]No turns in this chat yet. Start typing below![/dim]"] ∧
    (on_mount initialBrowserState (.ok ⟨[], hb, ha⟩)).2 = none ∧
    action_navigate_up_target (on_mount initialBrowserState (.ok ⟨[], hb, ha⟩)).1 = none ∧
    action_navigate_down_target (on_mount initialBrowserState (.ok ⟨[], hb, ha⟩)).1 = none ∧
    action_navigate_left_target (on_mount initialBrowserState (.ok ⟨[], hb, ha⟩)).1 = none ∧
    action_navigate_right_target (on_mount initialBrowserState (.ok ⟨[], hb, ha⟩)).1 = none := by
  exact ⟨rfl, rfl, rfl, rfl, rfl, rfl, rfl, rfl⟩

/-! ## Claims about the stream consumer rendering -/

theorem extends_handle_block_start (st : StreamState) (bt : Option String) :
    ∃ t, (handle_block_start st bt).content = st.content ++ t := by
  unfold handle_block_start
  by_cases h : bt ≠ st.current_block_type
  · rw [if_pos h]
    cases bt with
    | none => exact ⟨"", (String.append_empty _).symm⟩
    | some b =>
        dsimp only
        by_cases hb : b ≠ ""
        · rw [if_pos hb]
          exact ⟨blockLabel b, rfl⟩
        · rw [if_neg hb]
          exact ⟨"", (String.append_empty _).symm⟩
  · rw [if_neg h]
    exact ⟨"", (String.append_empty _).symm⟩

theorem extends_handle_delta_block_type (st : StreamState) (bt : Option String) :
    ∃ t, (handle_delta_block_type st bt).content = st.content ++ t := by
  unfold handle_delta_block_type
  cases bt with
  | none => exact ⟨"", (String.append_empty _).symm⟩
  | some b =>
      dsimp only
      by_cases hb : b ≠ "" ∧ some b ≠ st.current_block_type
      · rw [if_pos hb]
        exact ⟨blockLabel b, rfl⟩
      · rw [if_neg hb]
        exact ⟨"", (String.append_empty _).symm⟩

theorem extends_trans {a b c : String} (h1 : ∃ t, b = a ++ t)
    (h2 : ∃ u, c = b ++ u) : ∃ v, c = a ++ v := by
  obtain ⟨t, ht⟩ := h1
  obtain ⟨u, hu⟩ := h2
  exact ⟨t ++ u, by rw [hu, ht, String.append_assoc]⟩

/-- C3: rendering is append-only and monotonic — after processing any
stream event, the previously accumulated content is a prefix of the new
content (some suffix was appended) and its length is non-decreasing. -/
theorem append_only_rendering_spec (st : StreamState) (e : StreamEvent) :
    (∃ t, (processEvent st e).content = st.content ++ t) ∧
    st.content.length ≤ (processEvent st e).content.length := by
  have hext : ∃ t, (processEvent st e).content = st.content ++ t := by
    cases e with
    | block_start bt => exact extends_handle_block_start st bt
    | turn_complete => exact ⟨"", (String.append_empty _).symm⟩
    | otherEvent n => exact ⟨"", (String.append_empty _).symm⟩
    | block_delta d =>
        have h1 := extends_handle_delta_block_type st d.block_type
        have h2 : ∃ u, (processEvent st (.block_delta d)).content
            = (handle_delta_block_type st d.block_type).content ++ u := by
          simp only [processEvent]
          split
          · split
            · exact ⟨d.text_delta, rfl⟩
            · exact ⟨"", (String.append_empty _).symm⟩
          · split
            · split
              · exact ⟨d.input_json_delta, rfl⟩
              · exact ⟨"", (String.append_empty _).symm⟩
            · exact ⟨"", (String.append_empty _).symm⟩
        exact extends_trans h1 h2
  refine ⟨hext, ?_⟩
  obtain ⟨t, ht⟩ := hext
  rw [ht, String.length_append]
  omega

/-- C5: dispatch of `block_delta` events — for `delta_type` in
`{text_delta, thinking_delta}` the `text_delta` payload is appended
exactly when it is non-empty and the (possibly just switched) current
block type is `thinking` or `text`; for `input_json_delta` the
`input_json_delta` payload is appended exactly when it is non-empty and
the current block type is `tool_use` or `tool_result`; any other
`delta_type` leaves the state untouched beyond the defensive block-type
switch and never aborts the stream. -/
theorem delta_dispatch_spec (st : StreamState) (d : BlockDeltaData) :
    ((d.delta_type = some "text_delta" ∨ d.delta_type = some "thinking_delta") →
      processEvent st (.block_delta d) =
        (if d.text_delta ≠ "" ∧
            ((handle_delta_block_type st d.block_type).current_block_type = some "thinking" ∨
             (handle_delta_block_type st d.block_type).current_block_type = some "text") then
          { handle_delta_block_type st d.block_type with
              content := (handle_delta_block_type st d.block_type).content ++ d.text_delta }
        else handle_delta_block_type st d.block_type)) ∧
    (d.delta_type = some "input_json_delta" →
      processEvent st (.block_delta d) =
        (if d.input_json_delta ≠ "" ∧
            ((handle_delta_block_type st d.block_type).current_block_type = some "tool_use" ∨
             (handle_delta_block_type st d.block_type).current_block_type = some "tool_result") then
          { handle_delta_block_type st d.block_type with
              content := (handle_delta_block_type st d.block_type).content ++ d.input_json_delta }
        else handle_delta_block_type st d.block_type)) ∧
    (d.delta_type ≠ some "text_delta" → d.delta_type ≠ some "thinking_delta" →
      d.delta_type ≠ some "input_json_delta" →
      processEvent st (.block_delta d) = handle_delta_block_type st d.block_type) := by
  refine ⟨fun h => ?_, fun h => ?_, fun h1 h2 h3 => ?_⟩
  · simp only [processEvent]
    rw [if_pos h]
  · have hne : ¬(d.delta_type = some "text_delta" ∨ d.delta_type = some "thinking_delta") := by
      rw [h]
      simp
    simp only [processEvent]
    rw [if_neg hne, if_pos h]
  · have hne : ¬(d.delta_type = some "text_delta" ∨ d.delta_type = some "thinking_delta") :=
      fun hcon => hcon.elim h1 h2
    simp only [processEvent]
    rw [if_neg hne, if_neg h3]

/-- Witness for C5: a concrete `text_delta` while a `text` block is open
appends the payload, via the theorem's first clause. -/
theorem delta_dispatch_spec_witness :
    processEvent { content := "A", current_block_type := some "text" }
        (.block_delta { delta_type := some "text_delta", block_type := none,
                        text_delta := "hi", input_json_delta := "" })
      = { content := "Ahi", current_block_type := some "text" } := by
  have h := (delta_dispatch_spec
      { content := "A", current_block_type := some "text" }
      { delta_type := some "text_delta", block_type := none,
        text_delta := "hi", input_json_delta := "" }).1 (Or.inl rfl)
  rw [h]
  decide

/-- C6: the stream consumer reports exactly one terminal value — the
assistant turn id when the stream completes normally, `none` when it
fails; operator cancellation issues exactly one interrupt call for the
turn id and dismisses with `none` whether the interrupt call succeeds or
raises. -/
theorem terminal_outcome_spec (turnId : String) (ir : Except String Unit) :
    (∀ events, (start_streaming turnId (.completes events)).dismissals = [some turnId]) ∧
    (∀ events ename emsg,
      (start_streaming turnId (.fails events ename emsg)).dismissals = [none]) ∧
    (action_cancel turnId ir).interrupt_calls = [turnId] ∧
    (action_cancel turnId ir).dismissals = [none] := by
  refine ⟨fun events => rfl, fun _ _ _ => rfl, ?_, ?_⟩
  · cases ir <;> rfl
  · cases ir <;> rfl

/-! ## Claims about the SSE line loop -/

theorem isPrefixOf_append_self (l₁ l₂ : List Char) : l₁.isPrefixOf (l₁ ++ l₂) = true := by
  induction l₁ with
  | nil => simp [List.isPrefixOf]
  | cons a as ih => simp [List.isPrefixOf, ih]

theorem pyStartsWith_append_self (pre s : String) : pyStartsWith (pre ++ s) pre = true := by
  unfold pyStartsWith
  rw [show (pre ++ s).data = pre.data ++ s.data from rfl]
  exact isPrefixOf_append_self _ _

theorem dataLine_not_eventLine (s : String) :
    pyStartsWith ("data: " ++ s) "event: " = false := by
  unfold pyStartsWith
  rw [show ("data: " ++ s).data = 'd' :: ("ata: " ++ s).data from rfl]
  rw [show ("event: " : String).data = 'e' :: ("vent: " : String).data from rfl]
  simp [List.isPrefixOf]

theorem processLine_eventLine {D : Type} (p : String → Option D)
    (st : SSEState D) (name : String) :
    processLine p st ("event: " ++ name) = { st with event_type := some name } := by
  unfold processLine
  rw [pyStartsWith_append_self, if_pos rfl]
  rw [show pyDrop ("event: " ++ name) 7 = name from rfl]

theorem processLine_dataLine {D : Type} (p : String → Option D)
    (st : SSEState D) (d : String) :
    processLine p st ("data: " ++ d) = { st with data_lines := st.data_lines ++ [d] } := by
  unfold processLine
  rw [dataLine_not_eventLine, if_neg (by decide : ¬(false = true))]
  rw [pyStartsWith_append_self, if_pos rfl]
  rw [show pyDrop ("data: " ++ d) 6 = d from rfl]

theorem processLine_blank_some {D : Type} (p : String → Option D)
    (name : String) (datas : List String) (evs : List (String × D)) (w : Nat)
    (hn : name ≠ "") (hd : datas ≠ []) :
    processLine p ⟨some name, datas, evs, w⟩ "" =
      match p (String.intercalate "\n" datas) with
      | some d => ⟨none, [], evs ++ [(name, d)], w⟩
      | none => ⟨none, [], evs, w + 1⟩ := by
  unfold processLine
  rw [if_neg (by decide : ¬(pyStartsWith "" "event: " = true)),
      if_neg (by decide : ¬(pyStartsWith "" "data: " = true)),
      if_pos rfl]
  dsimp only
  rw [if_pos ⟨hn, hd⟩]

theorem foldl_dataLines {D : Type} (p : String → Option D) (datas : List String)
    (et : Option String) (dl : List String) (evs : List (String × D)) (w : Nat) :
    List.foldl (processLine p) ⟨et, dl, evs, w⟩ (datas.map (fun d => "data: " ++ d))
      = ⟨et, dl ++ datas, evs, w⟩ := by
  induction datas generalizing dl with
  | nil => simp
  | cons d ds ih =>
      simp only [List.map_cons, List.foldl_cons, processLine_dataLine]
      rw [ih]
      simp

theorem foldl_encodeFrame {D : Type} (p : String → Option D) (f : SSEFrame)
    (hwf : wellFormedFrame f) (evs : List (String × D)) (w : Nat) :
    List.foldl (processLine p) ⟨none, [], evs, w⟩ (encodeFrame f)
      = match p (frameData f) with
        | some d => ⟨none, [], evs ++ [(f.name, d)], w⟩
        | none => ⟨none, [], evs, w + 1⟩ := by
  unfold encodeFrame
  rw [List.foldl_cons, processLine_eventLine, List.foldl_append, foldl_dataLines]
  simp only [List.foldl_cons, List.foldl_nil, List.nil_append]
  exact processLine_blank_some p f.name f.datas evs w hwf.1 hwf.2

theorem encodeFrames_append (l₁ l₂ : List SSEFrame) :
    encodeFrames (l₁ ++ l₂) = encodeFrames l₁ ++ encodeFrames l₂ := by
  induction l₁ with
  | nil => rfl
  | cons f fs ih => simp [encodeFrames, ih]

theorem collectEvents_append {D : Type} (p : String → Option D) (l₁ l₂ : List SSEFrame) :
    collectEvents p (l₁ ++ l₂) = collectEvents p l₁ ++ collectEvents p l₂ := by
  induction l₁ with
  | nil => rfl
  | cons f fs ih =>
      simp only [List.cons_append, collectEvents]
      cases frameEvent p f <;> simp [ih]

theorem countMalformed_append {D : Type} (p : String → Option D) (l₁ l₂ : List SSEFrame) :
    countMalformed p (l₁ ++ l₂) = countMalformed p l₁ + countMalformed p l₂ := by
  induction l₁ with
  | nil => simp [countMalformed]
  | cons f fs ih =>
      simp only [List.cons_append, countMalformed, List.append_eq, ih]
      omega

theorem foldl_encodeFrames {D : Type} (p : String → Option D) (frames : List SSEFrame)
    (hwf : ∀ f ∈ frames, wellFormedFrame f) (evs : List (String × D)) (w : Nat) :
    List.foldl (processLine p) ⟨none, [], evs, w⟩ (encodeFrames frames)
      = ⟨none, [], evs ++ collectEvents p frames, w + countMalformed p frames⟩ := by
  induction frames generalizing evs w with
  | nil => simp [encodeFrames, collectEvents, countMalformed]
  | cons f fs ih =>
      have hf := hwf f (List.mem_cons_self f fs)
      have hfs : ∀ g ∈ fs, wellFormedFrame g := fun g hg => hwf g (List.mem_cons_of_mem f hg)
      rw [show encodeFrames (f :: fs) = encodeFrame f ++ encodeFrames fs from rfl,
          List.foldl_append, foldl_encodeFrame p f hf evs w]
      cases hp : p (frameData f) with
      | none =>
          rw [ih hfs]
          simp only [collectEvents, countMalformed, frameEvent, hp, Option.map_none',
            SSEState.mk.injEq, true_and]
          omega
      | some d =>
          rw [ih hfs]
          simp only [collectEvents, countMalformed, frameEvent, hp, Option.map_some',
            SSEState.mk.injEq, true_and]
          refine ⟨?_, ?_⟩
          · simp
          · omega

/-- C7: an SSE frame whose data section fails to JSON-parse is dropped
with a logged warning and yields no event; the stream is not aborted and
the surrounding well-formed frames are still parsed and yielded in
order — the run with the malformed frame yields exactly the events of
the run without it, plus one warning. -/
theorem malformed_frame_spec {D : Type} (p : String → Option D)
    (pre post : List SSEFrame) (bad : SSEFrame)
    (hpre : ∀ f ∈ pre, wellFormedFrame f) (hbad : wellFormedFrame bad)
    (hpost : ∀ f ∈ post, wellFormedFrame f)
    (hmal : p (frameData bad) = none) :
    (runSSE p (encodeFrames (pre ++ [bad] ++ post))).events
      = (runSSE p (encodeFrames (pre ++ post))).events ∧
    (runSSE p (encodeFrames (pre ++ [bad] ++ post))).warnings
      = (runSSE p (encodeFrames (pre ++ post))).warnings + 1 ∧
    (runSSE p (encodeFrames (pre ++ post))).events
      = collectEvents p pre ++ collectEvents p post := by
  have hall1 : ∀ f ∈ pre ++ [bad] ++ post, wellFormedFrame f := by
    intro f hf
    rcases List.mem_append.mp hf with hf1 | hf2
    · rcases List.mem_append.mp hf1 with hf3 | hf4
      · exact hpre f hf3
      · rw [List.mem_singleton.mp hf4]
        exact hbad
    · exact hpost f hf2
  have hall2 : ∀ f ∈ pre ++ post, wellFormedFrame f := by
    intro f hf
    rcases List.mem_append.mp hf with hf1 | hf2
    · exact hpre f hf1
    · exact hpost f hf2
  unfold runSSE initSSEState
  rw [foldl_encodeFrames p _ hall1 [] 0, foldl_encodeFrames p _ hall2 [] 0]
  have hbadcollect : collectEvents p [bad] = [] := by
    simp [collectEvents, frameEvent, hmal]
  have hbadcount : countMalformed p [bad] = 1 := by
    simp [countMalformed, hmal]
  refine ⟨?_, ?_, ?_⟩
  · simp only [List.nil_append, collectEvents_append, hbadcollect, List.append_nil]
  · simp only [Nat.zero_add, countMalformed_append, hbadcount]
    omega
  · simp only [List.nil_append, collectEvents_append]

/-- Witness for C7: a malformed middle frame between two well-formed
frames is dropped while both neighbours still yield their events in
order. -/
theorem malformed_frame_spec_witness :
    (runSSE toyParse (encodeFrames
        ([⟨"block_start", ["good"]⟩] ++ [⟨"block_delta", ["oops"]⟩]
          ++ [⟨"turn_complete", ["good"]⟩]))).events
      = (runSSE toyParse (encodeFrames
        ([⟨"block_start", ["good"]⟩] ++ [⟨"turn_complete", ["good"]⟩]))).events ∧
    (runSSE toyParse (encodeFrames
        ([⟨"block_start", ["good"]⟩] ++ [⟨"turn_complete", ["good"]⟩]))).events
      = [("block_start", 7), ("turn_complete", 7)] := by
  have h := malformed_frame_spec toyParse [⟨"block_start", ["good"]⟩]
      [⟨"turn_complete", ["good"]⟩] ⟨"block_delta", ["oops"]⟩
      (by decide) (by decide) (by decide) (by decide)
  refine ⟨h.1, ?_⟩
  rw [h.2.2]
  decide
